import Mathlib

/-
  Verification development for the FormScraper repository.

  Shallow embedding of the field-detection, scoring, form-selection,
  pipeline and crawl-orchestration logic of
  src/field_detector.py, src/form_analyzer.py and src/form_scraper.py.

  Conventions of the embedding:
  * Python strings are Lean String values; the Python operators
    in, .lower(), .strip() are modelled by pyIn, pyLower, pyStrip below
    (ASCII inputs, which is all the source ever compares).
  * A Selenium element is modelled by the Element structure: the fields
    hold the answers the external DOM driver would give (attribute map,
    tag name, visibility, label texts, sibling texts, ancestor-container
    facts, resolved xpath).  Per the specification these queries are the
    external collaborator interface.
  * Python None for a missing attribute is modelled by a lookup miss,
    which behaves as the empty string exactly where the source uses
    the `or ""` / falsiness idiom.
-/

namespace FormScraper

/-! ## Python string primitives -/

/-- Occurrence test on character lists: true when p occurs contiguously in s. -/
def isSubList (p : List Char) : List Char → Bool
  | [] => p.isEmpty
  | c :: t => List.isPrefixOf p (c :: t) || isSubList p t

/-- Model of the Python expression p in s on strings. -/
def pyIn (p s : String) : Bool := isSubList p.data s.data

/-- ASCII upper-to-lower table: the part of Python str.lower() the source can hit. -/
def upperLowerTable : List (Char × Char) :=
  [('A','a'),('B','b'),('C','c'),('D','d'),('E','e'),('F','f'),('G','g'),
   ('H','h'),('I','i'),('J','j'),('K','k'),('L','l'),('M','m'),('N','n'),
   ('O','o'),('P','p'),('Q','q'),('R','r'),('S','s'),('T','t'),('U','u'),
   ('V','v'),('W','w'),('X','x'),('Y','y'),('Z','z')]

def pyLowerChar (c : Char) : Char := (upperLowerTable.lookup c).getD c

/-- Model of Python str.lower() for the ASCII data the scraper handles. -/
def pyLower (s : String) : String := ⟨s.data.map pyLowerChar⟩

def pyStripList (l : List Char) : List Char :=
  ((l.dropWhile Char.isWhitespace).reverse.dropWhile Char.isWhitespace).reverse

/-- Model of Python str.strip(). -/
def pyStrip (s : String) : String := ⟨pyStripList s.data⟩

/-- Word character in the sense of a Python regex word boundary (ASCII case). -/
def isWordChar (c : Char) : Bool := c.isAlphanum || c = '_'

/-- Does the literal pattern p match at the head of s with regex word
boundaries on both sides, given the word-status of the previous character? -/
def boundaryMatchAt (p : List Char) (prevIsWord : Bool) (s : List Char) : Bool :=
  match p with
  | [] => false
  | c :: _ =>
    List.isPrefixOf p s &&
    (prevIsWord != isWordChar c) &&
    (match p.getLast?, (s.drop p.length).head? with
     | some lastC, some nextC => isWordChar lastC != isWordChar nextC
     | some lastC, none => isWordChar lastC
     | none, _ => false)

def wbSearchAux (p : List Char) : Bool → List Char → Bool
  | prevW, [] => boundaryMatchAt p prevW []
  | prevW, c :: rest => boundaryMatchAt p prevW (c :: rest) || wbSearchAux p (isWordChar c) rest

/-- Model of re.search of a word-boundary-wrapped, regex-escaped literal:
the pattern occurs somewhere in the string with word boundaries on both ends. -/
def wbMatch (p s : String) : Bool := wbSearchAux p.data false s.data

/-- One pattern test of map_to_standard_field: the escaped word-boundary regex
search, or the plain substring test (source tries both and returns on either). -/
def patMatch (p name : String) : Bool := wbMatch p name || pyIn p name

/-! ## Canonical fields and the pattern tables (field_detector.py) -/

inductive StdField
  | Title | FirstName | LastName | Email | ConfirmEmail
  | JobTitle | Organization | Phone | Street | City
  | State | Zipcode | Country | Privacy | Submit
deriving DecidableEq, Repr

/-- The standard_fields list of FieldDetector, in declaration order. -/
def standard_fields : List StdField :=
  [.Title, .FirstName, .LastName, .Email, .ConfirmEmail,
   .JobTitle, .Organization, .Phone, .Street, .City,
   .State, .Zipcode, .Country, .Privacy, .Submit]

/-- The priority_fields list of FieldDetector. -/
def priority_fields : List StdField := [.FirstName, .LastName, .Email]

/-- The field_patterns table, as an ordered association list in Python dict
insertion order.  The Organization entry reproduces the source verbatim,
including the implicit-concatenation artifact Company Typecorporation. -/
def fieldPatternsList : List (StdField × List String) :=
  [(.Title, ["title", "prefix", "salutation", "honorific", "mr", "mrs", "ms", "dr", "prof", "suffix"]),
   (.FirstName, ["first name", "firstname", "given name", "forename", "first", "fname", "givenname",
                 "name.*first", "first.*name", "given", "name_first"]),
   (.LastName, ["last name", "lastname", "surname", "family name", "last", "lname", "familyname",
                "name.*last", "last.*name", "family", "name_last", "sur name"]),
   (.Email, ["email", "e-mail", "mail", "emailaddress", "e mail", "your email", "primary email",
             "contact email", "email.*address", "address.*email"]),
   (.ConfirmEmail, ["confirm email", "repeat email", "verify email", "email confirm", "reenter email",
                    "confirm.*email", "email.*confirm", "email.*again", "retype.*email", "verify.*email"]),
   (.JobTitle, ["job title", "position", "role", "job role", "job position", "occupation", "title", "jobtitle",
                "job_title", "job-title", "job function", "profession", "work title"]),
   (.Organization, ["company", "organization", "organisation", "employer", "business", "firm", "workplace",
                    "company name", "employer name", "business name", "organization name", "institution",
                    "Company Typecorporation", "agency", "department", "employer info"]),
   (.Phone, ["phone", "telephone", "mobile", "cell", "contact number", "phonenumber", "tel",
             "phone.*number", "mobile.*number", "contact.*phone", "daytime phone", "evening phone",
             "cell.*number", "primary phone", "work phone"]),
   (.Street, ["street", "address", "address line", "street address", "road", "addressline1", "address1",
              "addr1", "address line 1", "street name", "house number", "building", "apartment",
              "street.*address", "address.*line.*1", "addr.*line1", "address.*street", "shipping address",
              "billing address", "mailing address", "delivery address", "residence", "location"]),
   (.City, ["city", "town", "locality", "municipality", "urban area", "township", "city/town",
            "city name", "place", "village", "borough", "location.*city", "city.*location", "address.*city"]),
   (.State, ["state", "province", "region", "county", "territory", "division", "district",
             "state/province", "administrative area", "location.*state", "state.*region",
             "region.*state", "area"]),
   (.Zipcode, ["zip", "zipcode", "postal code", "post code", "zip code", "postalcode", "postcode",
               "postal", "pin code", "pin", "code postal", "zipcode.*postal", "postal.*zip",
               "zip.*code", "postal.*code", "area code"]),
   (.Country, ["country", "nation", "land", "territory", "nationality", "national", "country name",
               "country/region", "region/country", "location.*country", "country.*location"]),
   (.Privacy, ["privacy", "terms", "consent", "agree", "accept", "policy", "opt in", "gdpr", "marketing",
               "permission", "subscribe", "newsletter", "communications", "contact me", "contact you",
               "send me", "send you", "preference", "privacy.*policy", "terms.*conditions",
               "terms.*service", "cookie", "data policy", "personal data", "personal information",
               "data.*collect", "process.*data", "agreement", "updates", "notifications", "legal"])]

/-- Model of field_patterns.get(field_name, []). -/
def patternsFor (f : StdField) : List String :=
  match fieldPatternsList.find? (fun p => decide (p.1 = f)) with
  | some p => p.2
  | none => []

/-- Generic first-hit scan over an ordered (field, patterns) table. -/
def firstFieldBy (m : String → String → Bool) (name : String) :
    List (StdField × List String) → Option StdField
  | [] => none
  | (f, pats) :: rest =>
    if pats.any (fun p => m p name) then some f else firstFieldBy m name rest

/-- The additional privacy consent indicators of map_to_standard_field. -/
def privacyIndicators : List String :=
  ["i agree", "agree to", "accept", "consent",
   "subscribe", "sign up", "opt in", "permission",
   "can contact", "may contact", "receive"]

/-- The address_type_indicators dict of map_to_standard_field, in insertion order. -/
def addressTypeIndicators : List (StdField × List String) :=
  [(.Street, ["address line", "street address", "address1", "billing address", "shipping address"]),
   (.City, ["city", "town"]),
   (.State, ["state", "province", "region"]),
   (.Zipcode, ["zip", "postal", "post code"]),
   (.Country, ["country", "nation"])]

/-- The trailing address_patterns dict of map_to_standard_field. -/
def addressPatterns : List (StdField × List String) :=
  [(.Street, ["addr", "address1", "line1", "street", "thoroughfare"]),
   (.City, ["city", "town", "locality"]),
   (.State, ["state", "province", "region", "territory"]),
   (.Zipcode, ["zip", "postal", "postcode", "postalcode"]),
   (.Country, ["country", "nation", "countries"])]

/-- The action verbs recognised on submit and button typed elements. -/
def submitTerms : List String := ["submit", "send", "continue", "next", "go", "register"]

/-- The tail of map_to_standard_field after the privacy and address-indicator
stages: email type, tel type, submit verbs, the generic pattern table in
declaration order, then the trailing address name patterns.  Factored out of
mapToStandardField; name is the already-lowered hint. -/
def classifyByType (name : String) (elementType : String) : Option StdField :=
  if elementType = "email" then
    if pyIn "confirm" name || pyIn "verify" name || pyIn "repeat" name then
      some .ConfirmEmail
    else some .Email
  else if elementType = "tel" then some .Phone
  else if (elementType = "submit" ∨ elementType = "button") ∧
          submitTerms.any (fun p => pyIn p name) = true then
    some .Submit
  else
    match firstFieldBy patMatch name fieldPatternsList with
    | some f => some f
    | none => firstFieldBy pyIn name addressPatterns

/-- FieldDetector.map_to_standard_field.  Mirrors the source decision chain:
privacy checkbox rules, address-specific indicators, then classifyByType for
the remaining stages; None when nothing matches. -/
def mapToStandardField (guessedName : String) (elementType : String) : Option StdField :=
  if guessedName = "" then none
  else if (elementType = "checkbox" ∨ elementType = "radio") ∧
          ((patternsFor .Privacy).any (fun p => pyIn p (pyLower guessedName)) = true ∨
           privacyIndicators.any (fun p => pyIn p (pyLower guessedName)) = true) then
    some .Privacy
  else
    match firstFieldBy pyIn (pyLower guessedName) addressTypeIndicators with
    | some f => some f
    | none => classifyByType (pyLower guessedName) elementType

/-! ## Elements and the hint extractor (FieldDetector.guess_field_name) -/

/-- A page element as seen through the external DOM collaborator: each field
records the answer the driver query used by the source would return.
Sibling entries are (tag name, text) pairs in document order. -/
structure Element where
  attrs : List (String × String)
  tag : String
  text : String
  visible : Bool
  labelForTexts : List String
  parentTag : String
  parentText : String
  precedingSiblings : List (String × String)
  followingSiblings : List (String × String)
  inAddressContainer : Bool
  containerHeaderTexts : List String
  resolvedXPath : String
deriving DecidableEq, Repr

/-- get_attribute with the `or ""` falsiness convention of the source:
a missing attribute (Python None) behaves as the empty string. -/
def getAttr (e : Element) (a : String) : String := (e.attrs.lookup a).getD ""

/-- element.get_attribute with no `or` fallback: None modelled as lookup miss. -/
def getAttrOpt (e : Element) (a : String) : Option String := e.attrs.lookup a

/-- The idiom element.get_attribute("type") or element.tag_name. -/
def elemType (e : Element) : String :=
  if getAttr e "type" = "" then e.tag else getAttr e "type"

/-- xpath resolution; the source defers to id, name and finally a JavaScript
walk executed by the external driver (spec lists xpathOf as a collaborator
interface), so the result is carried as element data. -/
def getXPath (e : Element) : String := e.resolvedXPath

/-- FormAnalyzer.is_element_required: required attribute equals "true", or
aria-required equals "true", or "required" occurs in the class attribute. -/
def isElementRequired (e : Element) : Bool :=
  decide (getAttrOpt e "required" = some "true") ||
  decide (getAttrOpt e "aria-required" = some "true") ||
  pyIn "required" (getAttr e "class")

/-- The six attributes scanned directly for hints, in source order. -/
def attrScanOrder : List String :=
  ["name", "id", "placeholder", "aria-label", "title", "data-label"]

/-- Replacement used by re.sub of hyphen or underscore with a space. -/
def replChar (c : Char) : Char := if c = '-' ∨ c = '_' then ' ' else c

/-- The attribute clean-up of guess_field_name: substitute, strip, lower. -/
def cleanAttr (v : String) : String := pyLower (pyStrip ⟨v.data.map replChar⟩)

/-- Hints harvested from the direct attributes: non-empty raw values whose
cleaned form is non-empty and longer than one character. -/
def attrHintList (e : Element) : List String :=
  attrScanOrder.filterMap (fun a =>
    let value := getAttr e a
    if value = "" then none
    else
      let v := cleanAttr value
      if v ≠ "" ∧ 1 < v.length then some v else none)

/-- Hints from label elements associated via for=id (queried only when the
element has an id); texts are stripped and lowered, appended unconditionally. -/
def labelForHints (e : Element) : List String :=
  if getAttr e "id" = "" then [] else e.labelForTexts.map (fun t => pyLower (pyStrip t))

/-- Hint from an immediate parent that is itself a label. -/
def parentLabelHints (e : Element) : List String :=
  if e.parentTag = "label" then [pyLower (pyStrip e.parentText)] else []

def labelLikeTags : List String := ["label", "span", "div", "p"]

/-- Short texts on preceding siblings limited to label-like tags. -/
def precedingHints (e : Element) : List String :=
  e.precedingSiblings.filterMap (fun pr =>
    if pr.1 ∈ labelLikeTags then
      let text := pyLower (pyStrip pr.2)
      if text ≠ "" ∧ text.length < 50 then some text else none
    else none)

/-- The ancestor address-container contribution: the synthetic token plus any
non-empty legend or header text found inside the container. -/
def addressContainerHints (e : Element) : List String :=
  if e.inAddressContainer then
    "address field" :: e.containerHeaderTexts.filterMap (fun t =>
      if pyStrip t ≠ "" then some (pyLower (pyStrip t)) else none)
  else []

/-- Short texts on the next two following siblings limited to label-like tags. -/
def followingHints (e : Element) : List String :=
  (e.followingSiblings.take 2).filterMap (fun nx =>
    if nx.1 ∈ labelLikeTags then
      let text := pyLower (pyStrip nx.2)
      if text ≠ "" ∧ text.length < 50 then some text else none
    else none)

/-- All hint signals in the order guess_field_name collects them. -/
def rawHints (e : Element) : List String :=
  attrHintList e ++ labelForHints e ++ parentLabelHints e ++
  precedingHints e ++ addressContainerHints e ++ followingHints e

/-- The filter h and not h.isspace() applied before joining. -/
def keepHint (h : String) : Bool := h ≠ "" && !(h.data.all Char.isWhitespace)

/-- Duplicate removal preserving first-seen order (the seen-set idiom). -/
def dedupKeepFirst : List String → List String → List String
  | [], _ => []
  | h :: t, seen =>
    if h ∈ seen then dedupKeepFirst t seen else h :: dedupKeepFirst t (h :: seen)

/-- The final hint list after emptiness filtering and deduplication. -/
def finalHints (e : Element) : List String :=
  dedupKeepFirst ((rawHints e).filter keepHint) []

/-- FieldDetector.guess_field_name: join the surviving hints with spaces, or
return the sentinel when no signal yields text. -/
def guessFieldName (e : Element) : String :=
  let hints := finalHints e
  if hints.isEmpty then "Unknown Field" else String.intercalate " " hints

/-! ## CandidateScorer (FormAnalyzer.find_best_candidate_for_field) -/

/-- Matcher for the inner alternation (?:first|last)(?:_|-|$|name) at the head
of s, returning the matched text; alternatives tried in regex order. -/
def nameSegMidEnd (s : List Char) : Option (List Char) :=
  let tryMid (m : List Char) : Option (List Char) :=
    if List.isPrefixOf m s then
      let rest := s.drop m.length
      if List.isPrefixOf ['_'] rest then some (m ++ ['_'])
      else if List.isPrefixOf ['-'] rest then some (m ++ ['-'])
      else if rest = [] then some m
      else if List.isPrefixOf "name".data rest then some (m ++ "name".data)
      else none
    else none
  match tryMid "first".data with
  | some r => some r
  | none => tryMid "last".data

/-- Match attempt of (?:^|_|-)(?:first|last)(?:_|-|$|name) at one position:
the caret alternative only when at the start of the string, then a literal
underscore or hyphen separator. -/
def nameSegAt (s : List Char) (atStart : Bool) : Option (List Char) :=
  match (if atStart then nameSegMidEnd s else none) with
  | some r => some r
  | none =>
    match s with
    | '_' :: rest =>
      match nameSegMidEnd rest with
      | some r => some ('_' :: r)
      | none => none
    | '-' :: rest =>
      match nameSegMidEnd rest with
      | some r => some ('-' :: r)
      | none => none
    | _ => none

/-- Leftmost-match search, scanning start offsets left to right as re.search. -/
def nameSegSearch : List Char → Bool → Option (List Char)
  | [], atStart => nameSegAt [] atStart
  | c :: rest, atStart =>
    match nameSegAt (c :: rest) atStart with
    | some r => some r
    | none => nameSegSearch rest false

/-- Model of re.search of the strict name-segment pattern, giving group(0). -/
def nameSegMatch (value : String) : Option String :=
  (nameSegSearch value.data true).map (fun l => ⟨l⟩)

/-- The four attributes scored by find_best_candidate_for_field. -/
def scoreAttrsOrder : List String := ["name", "id", "placeholder", "aria-label"]

/-- The +100 special case for name fields: the strict segment match must
isolate the right half for the requested field. -/
def nameSegBonus (fieldName : StdField) (value : String) : Nat :=
  if fieldName = .FirstName ∨ fieldName = .LastName then
    match nameSegMatch value with
    | some fieldPart =>
      if (fieldName = .FirstName ∧ pyIn "first" fieldPart) ∨
         (fieldName = .LastName ∧ pyIn "last" fieldPart) then 100 else 0
    | none => 0
  else 0

/-- The per-element score of find_best_candidate_for_field: +50 type affinity,
then per non-empty attribute +30 per substring pattern hit and +50 per
word-boundary pattern hit, plus the +100 name-segment bonus. -/
def scoreElem (fieldName : StdField) (patterns : List String) (e : Element) : Nat :=
  let etype := elemType e
  let typeScore : Nat :=
    if (fieldName = .Email ∧ etype = "email") ∨
       (fieldName = .Phone ∧ etype = "tel") then 50 else 0
  scoreAttrsOrder.foldl (fun acc attr =>
    let value := pyLower (getAttr e attr)
    if value = "" then acc
    else
      let patScore := patterns.foldl (fun a p =>
        a + (if pyIn p value then 30 else 0) + (if wbMatch p value then 50 else 0)) 0
      acc + patScore + nameSegBonus fieldName value) typeScore

/-- The positively scored candidates, in element encounter order, skipping
hidden-typed elements. -/
def posCands (elements : List Element) (f : StdField) : List (Element × Nat) :=
  elements.filterMap (fun e =>
    if elemType e = "hidden" then none
    else
      let s := scoreElem f (patternsFor f) e
      if 0 < s then some (e, s) else none)

/-- One element qualifies for the positional name fallback: text-typed, and
some attribute among name, id, placeholder contains "name" but neither
"first" nor "last". -/
def isAmbiguousNameField (e : Element) : Bool :=
  decide (getAttr e "type" = "text") &&
  ["name", "id", "placeholder"].any (fun a =>
    let value := pyLower (getAttr e a)
    pyIn "name" value && !(pyIn "first" value) && !(pyIn "last" value))

/-- The ambiguous name fields collected by the FirstName/LastName fallback. -/
def nameFields (elements : List Element) : List Element :=
  elements.filter isAmbiguousNameField

/-! ## Stable descending sort by score (Python list.sort with reverse=True) -/

/-- Comparison used for the stable descending sorts of the source. -/
def scoreRel {α : Type} (score : α → Nat) (x y : α) : Prop := score y ≤ score x

instance {α : Type} (score : α → Nat) : DecidableRel (scoreRel score) :=
  fun x y => Nat.decLe (score y) (score x)

instance {α : Type} (score : α → Nat) : IsTotal α (scoreRel score) :=
  ⟨fun a b => Nat.le_total (score b) (score a)⟩

instance {α : Type} (score : α → Nat) : IsTrans α (scoreRel score) :=
  ⟨fun _ _ _ h1 h2 => Nat.le_trans h2 h1⟩

/-- Stable sort in descending score order (Python sort is stable and
reverse=True preserves the original order of equal keys). -/
def stableSortDesc {α : Type} (score : α → Nat) (l : List α) : List α :=
  List.insertionSort (scoreRel score) l

/-- First element attaining the maximal score: a later element replaces the
current best only when strictly greater, so ties keep the earlier one. -/
def argmaxFirst {α : Type} (score : α → Nat) : List α → Option α
  | [] => none
  | x :: xs =>
    match argmaxFirst score xs with
    | none => some x
    | some g => if score x < score g then some g else some x

/-- FormAnalyzer.find_best_candidate_for_field: score every element, fall back
to positional inference for FirstName/LastName when no element scores
positively and exactly two ambiguous name fields exist, then return the
head of the stable descending sort. -/
def find_best_candidate_for_field (elements : List Element) (f : StdField) : Option Element :=
  let cands := posCands elements f
  let cands2 :=
    if (f = .FirstName ∨ f = .LastName) ∧ cands = [] then
      match nameFields elements with
      | [a, b] => if f = .FirstName then [(a, 10)] else [(b, 10)]
      | _ => []
    else cands
  ((stableSortDesc Prod.snd cands2).head?).map Prod.fst

/-! ## FormLocator scoring and selection (FormAnalyzer.find_form_and_elements) -/

/-- One candidate form as scored by find_form_and_elements: the count of
visible non-hidden inputs/selects/textareas, the outcomes of the six
common-field presence queries (email, name, first, last, phone, address),
and whether a submit-typed control exists.  These counts and query results
come from the external driver. -/
structure FormInfo where
  visibleInputs : Nat
  fieldHits : List Bool
  hasSubmitControl : Bool
deriving DecidableEq, Repr

/-- form_score: 10 per visible input, +20 per common-field query hit,
+30 for a submit control. -/
def formScore (f : FormInfo) : Nat :=
  f.visibleInputs * 10 + 20 * (f.fieldHits.count true) + (if f.hasSubmitControl then 30 else 0)

/-- Form selection of find_form_and_elements: sort candidates by score
descending (stable), take the first with at least two visible inputs, else
the overall head of the sorted list. -/
def selectMainForm (forms : List FormInfo) : Option FormInfo :=
  let sorted := stableSortDesc formScore forms
  match sorted.find? (fun f => decide (2 ≤ f.visibleInputs)) with
  | some f => some f
  | none => sorted.head?

/-- Modelled from the spec wording for comparison: the highest-scoring form
with at least 2 visible inputs, ties broken by encounter order; if no
candidate has at least 2 inputs, the overall highest-scoring form. -/
def specSelectMainForm (forms : List FormInfo) : Option FormInfo :=
  match argmaxFirst formScore (forms.filter (fun f => decide (2 ≤ f.visibleInputs))) with
  | some f => some f
  | none => argmaxFirst formScore forms

/-! ## FieldExtractionPipeline pass 1 (FormFieldScraper.process_form_elements) -/

/-- The per-field record of the result dict. -/
structure FieldMatch where
  xpath : String
  ftype : String
  required : Bool
  found : Bool
deriving DecidableEq, Repr

/-- An entry of result additional_fields. -/
structure AdditionalField where
  field_name : String
  xpath : String
  element_type : String
  required : Bool
deriving DecidableEq, Repr

/-- The mutable state of the first pass: the per-field map, the ordered
additional-field list, the claimed-field set, and the two candidate side
lists accumulated for the post-pass fallbacks. -/
structure Pass1State where
  fields : List (StdField × FieldMatch)
  additional_fields : List AdditionalField
  processedFields : List StdField
  privacyCandidates : List (Element × String)
  confirmCandidates : List (Element × String)
deriving DecidableEq, Repr

def emptyFieldMatch : FieldMatch := { xpath := "", ftype := "", required := false, found := true }

def getField (st : Pass1State) (f : StdField) : FieldMatch :=
  (st.fields.lookup f).getD { xpath := "", ftype := "", required := false, found := false }

def setField (fs : List (StdField × FieldMatch)) (f : StdField) (m : FieldMatch) :
    List (StdField × FieldMatch) :=
  fs.map (fun p => if p.1 = f then (f, m) else p)

/-- The initial result fields: every standard field unfound (scrape_form_fields). -/
def initResultFields : List (StdField × FieldMatch) :=
  standard_fields.map (fun f => (f, { xpath := "", ftype := "", required := false, found := false }))

def initPass1State : Pass1State :=
  { fields := initResultFields, additional_fields := [],
    processedFields := [], privacyCandidates := [], confirmCandidates := [] }

/-- FormAnalyzer.process_button: claim Submit when the button text or value
contains one of the submit terms and Submit is still unfound. -/
def processButton (st : Pass1State) (e : Element) : Pass1State :=
  let buttonText := pyLower (pyStrip e.text)
  let buttonValue := pyLower (getAttr e "value")
  if ["submit", "send", "register", "sign up"].any
       (fun t => pyIn t buttonText || pyIn t buttonValue) then
    if (getField st .Submit).found = false then
      let m : FieldMatch :=
        { xpath := getXPath e,
          ftype := if getAttr e "type" = "" then "button" else getAttr e "type",
          required := true, found := true }
      { st with fields := setField st.fields StdField.Submit m }
    else st
  else st

/-- The privacy and confirm-email candidate accumulation of pass 1. -/
def accumCandidates (st : Pass1State) (e : Element) (etype guessed : String)
    (mapped : Option StdField) : Pass1State :=
  let st1 :=
    if (etype = "checkbox" ∨ etype = "radio") ∧
       ["privacy", "terms", "policy", "agree", "consent", "gdpr"].any
         (fun t => pyIn t (pyLower guessed)) then
      { st with privacyCandidates := st.privacyCandidates ++ [(e, guessed)] }
    else st
  if mapped = some .ConfirmEmail ∨
     (etype = "email" ∧ ["confirm", "verify", "repeat"].any
        (fun t => pyIn t (pyLower guessed))) then
    { st1 with confirmCandidates := st1.confirmCandidates ++ [(e, guessed)] }
  else st1

/-- One element of pass 1 of process_form_elements: skip invisible and hidden
elements, divert buttons, classify the rest; a first classification claims
the field, a duplicate classification or an unclassified element files an
AdditionalField only along the if/elif chain of the source (in particular a
duplicate that is not required falls off the chain and is filed nowhere). -/
def pass1Step (st : Pass1State) (e : Element) : Pass1State :=
  if e.visible = false then st
  else
    let etype := elemType e
    if etype = "hidden" then st
    else if etype = "submit" ∨ etype = "button" ∨ etype = "image" then processButton st e
    else
      let guessed := guessFieldName e
      let mapped := mapToStandardField guessed etype
      let isReq := isElementRequired e
      let st1 := accumCandidates st e etype guessed mapped
      match mapped with
      | some f =>
        if f ∉ st1.processedFields then
          { st1 with
            fields := setField st1.fields f
              { xpath := getXPath e, ftype := etype, required := isReq, found := true },
            processedFields := st1.processedFields ++ [f] }
        else if isReq = true then
          { st1 with additional_fields := st1.additional_fields ++
              [{ field_name := guessed, xpath := getXPath e, element_type := etype, required := true }] }
        else st1
      | none =>
        if isReq = true then
          { st1 with additional_fields := st1.additional_fields ++
              [{ field_name := guessed, xpath := getXPath e, element_type := etype, required := true }] }
        else
          { st1 with additional_fields := st1.additional_fields ++
              [{ field_name := guessed, xpath := getXPath e, element_type := etype, required := false }] }

/-- The whole first pass over the element list. -/
def process_form_elements_pass1 (elements : List Element) : Pass1State :=
  elements.foldl pass1Step initPass1State

/-! ## Crawl orchestration (FormFieldScraper.scrape_form_fields / process_url_list) -/

/-- The slice of the per-URL result record the crawl claims speak about. -/
structure PageResult where
  url : String
  error : Option String
deriving DecidableEq, Repr

/-- Outcome of one navigation attempt, indexed by the retry counter; models
the exceptions driver.get and the page body can raise. -/
inductive NavOutcome
  | ok
  | timeout
  | invalidSession
  | otherError (msg : String)
deriving DecidableEq, Repr

/-- FormFieldScraper.scrape_form_fields, retry skeleton: the success body
(captcha check, locator, pipeline) is abstracted as processPage, and the
second component counts the reset_browser calls performed.  An
InvalidSessionIdException retries with a session reset while
retry_count < max_retries, then records the terminal error string; a
generic error whose message mentions session or browser retries the same
way, otherwise the message is recorded. -/
def scrape_form_fields (nav : Nat → NavOutcome) (processPage : Nat → PageResult)
    (url : String) (retryCount maxRetries : Nat) : PageResult × Nat :=
  match nav retryCount with
  | .ok => (processPage retryCount, 0)
  | .timeout => ({ url := url, error := some "Timeout loading page" }, 0)
  | .invalidSession =>
    if _h : retryCount < maxRetries then
      let r := scrape_form_fields nav processPage url (retryCount + 1) maxRetries
      (r.1, r.2 + 1)
    else
      ({ url := url,
         error := some ("Invalid session ID after " ++ toString maxRetries ++ " retries") }, 0)
  | .otherError msg =>
    if pyIn "session" (pyLower msg) || pyIn "browser" (pyLower msg) then
      if _h : retryCount < maxRetries then
        let r := scrape_form_fields nav processPage url (retryCount + 1) maxRetries
        (r.1, r.2 + 1)
      else ({ url := url, error := some msg }, 0)
    else ({ url := url, error := some msg }, 0)
termination_by maxRetries - retryCount
decreasing_by all_goals omega

/-- One URL of the batch loop: append the scraped result, then append the URL
to the checkpoint log. -/
def runUrl (scrape : String → PageResult) (acc : List PageResult × List String)
    (url : String) : List PageResult × List String :=
  (acc.1 ++ [scrape url], acc.2 ++ [url])

/-- The batched loop of process_url_list over the filtered URL list; the
accumulator carries (all_results, checkpoint lines appended so far).  The
per-batch CSV write and browser reset are external I/O with no effect on
these two components.  A zero batch size is rejected by Python range and
never occurs (the source default is 20); it is modelled as a no-op. -/
def crawlLoop (scrape : String → PageResult) (bs : Nat) (urls : List String)
    (acc : List PageResult × List String) : List PageResult × List String :=
  match urls with
  | [] => acc
  | u :: rest =>
    if _h : bs = 0 then acc
    else
      crawlLoop scrape bs ((u :: rest).drop bs)
        (((u :: rest).take bs).foldl (runUrl scrape) acc)
termination_by urls.length
decreasing_by simp [List.length_drop]; omega

/-- FormFieldScraper.process_url_list: read the checkpoint lines (stripped),
skip URLs already present, process the rest in batches; returns the results
and the checkpoint lines appended by this run.  scrape is total because
scrape_form_fields returns an error-carrying result instead of raising. -/
def process_url_list (scrape : String → PageResult) (urlList : List String)
    (checkpointLines : List String) (batchSize : Nat) :
    List PageResult × List String :=
  let completedUrls := checkpointLines.map pyStrip
  let urlsToProcess := urlList.filter (fun u => decide (u ∉ completedUrls))
  crawlLoop scrape batchSize urlsToProcess ([], [])

/-! ## Concrete elements used to instantiate the claims -/

/-- An element with every collaborator answer empty: a bare visible input. -/
def blankElement : Element :=
  { attrs := [], tag := "input", text := "", visible := true, labelForTexts := [],
    parentTag := "", parentText := "", precedingSiblings := [], followingSiblings := [],
    inAddressContainer := false, containerHeaderTexts := [], resolvedXPath := "" }

/-- First email input: classifies to Email and claims it in pass 1. -/
def dupEmailFirst : Element :=
  { blankElement with attrs := [("name", "email"), ("type", "email")] }

/-- Second email input, not required: classifies to Email after it is claimed. -/
def dupEmailSecond : Element :=
  { blankElement with attrs := [("name", "secondary email"), ("type", "email")] }

/-- A visible text input whose hint maps to no canonical field. -/
def unclassifiedElem : Element :=
  { blankElement with attrs := [("name", "xyzq"), ("type", "text")] }

/-- The Scenario 1 element: name user_first_name, type text, nothing else. -/
def scenario1Elem : Element :=
  { blankElement with attrs := [("name", "user_first_name"), ("type", "text")] }

/-- Two ambiguous name inputs for the positional fallback scenario. -/
def ambigName1 : Element :=
  { blankElement with attrs := [("name", "name1"), ("type", "text")] }

def ambigName2 : Element :=
  { blankElement with attrs := [("name", "name2"), ("type", "text")] }

/-- An element whose only signal is a parent label with a hyphenated text. -/
def labelHyphenElem : Element :=
  { blankElement with parentTag := "label", parentText := "E-Mail" }

/-- An element whose only attribute value is a single character. -/
def singleCharAttrElem : Element :=
  { blankElement with attrs := [("name", "q")] }

/-! ## Helper lemmas about the string primitives -/

theorem isPrefixOf_map (f : Char → Char) :
    ∀ p s : List Char, List.isPrefixOf p s = true → List.isPrefixOf (p.map f) (s.map f) = true := by
  intro p
  induction p with
  | nil => intro s _; simp [List.isPrefixOf]
  | cons a as ih =>
    intro s h
    cases s with
    | nil => simp [List.isPrefixOf] at h
    | cons b bs =>
      simp only [List.isPrefixOf, Bool.and_eq_true, beq_iff_eq] at h
      simp only [List.map, List.isPrefixOf, Bool.and_eq_true, beq_iff_eq]
      exact ⟨congrArg f h.1, ih bs h.2⟩

theorem isSubList_map (f : Char → Char) :
    ∀ p s : List Char, isSubList p s = true → isSubList (p.map f) (s.map f) = true := by
  intro p s
  induction s with
  | nil =>
    intro h
    simp only [isSubList, List.isEmpty_iff] at h
    subst h
    simp [isSubList]
  | cons c t ih =>
    intro h
    simp only [isSubList, Bool.or_eq_true] at h ⊢
    rcases h with h | h
    · exact Or.inl (isPrefixOf_map f p (c :: t) h)
    · exact Or.inr (ih h)

theorem mem_of_lookup_eq_some_char :
    ∀ (tbl : List (Char × Char)) (k x : Char), tbl.lookup k = some x → (k, x) ∈ tbl := by
  intro tbl
  induction tbl with
  | nil => intro k x h; simp [List.lookup] at h
  | cons p es ih =>
    intro k x h
    obtain ⟨k1, v⟩ := p
    simp only [List.lookup] at h
    by_cases hk : k = k1
    · subst hk
      simp at h
      subst h
      exact List.mem_cons_self _ _
    · have hbeq : (k == k1) = false := beq_eq_false_iff_ne.mpr hk
      rw [hbeq] at h
      exact List.mem_cons_of_mem _ (ih k x h)

/-- pyLowerChar fixes any character that is not a lowercase output of the
upper-to-lower table. -/
theorem pyLowerChar_fix {c t : Char} (ht : ¬ t ∈ upperLowerTable.map Prod.snd)
    (h : pyLowerChar c = t) : c = t := by
  unfold pyLowerChar at h
  cases hl : upperLowerTable.lookup c with
  | none => rw [hl] at h; exact h
  | some x =>
    rw [hl] at h
    simp only [Option.getD_some] at h
    apply absurd _ ht
    rw [← h]
    exact List.mem_map.mpr ⟨(c, x), mem_of_lookup_eq_some_char _ _ _ hl, rfl⟩

theorem mem_pyStripList {x : Char} {l : List Char} (h : x ∈ pyStripList l) : x ∈ l := by
  unfold pyStripList at h
  have h1 := List.mem_reverse.mp h
  have h2 := (List.dropWhile_sublist _).subset h1
  have h3 := List.mem_reverse.mp h2
  exact (List.dropWhile_sublist _).subset h3

theorem replChar_ne (c : Char) : replChar c ≠ '-' ∧ replChar c ≠ '_' := by
  unfold replChar
  split
  · exact ⟨by decide, by decide⟩
  · rename_i hne
    push_neg at hne
    exact hne

/-- The attribute clean-up never leaves a hyphen or an underscore. -/
theorem cleanAttr_no_dash (v : String) :
    ¬ '-' ∈ (cleanAttr v).data ∧ ¬ '_' ∈ (cleanAttr v).data := by
  have hdata : (cleanAttr v).data = (pyStripList (v.data.map replChar)).map pyLowerChar := rfl
  rw [hdata]
  constructor <;> intro hmem
  · obtain ⟨d, hd, hdl⟩ := List.mem_map.mp hmem
    have hdd : d = '-' := pyLowerChar_fix (by decide) hdl
    subst hdd
    obtain ⟨c0, _, hc0⟩ := List.mem_map.mp (mem_pyStripList hd)
    exact (replChar_ne c0).1 hc0
  · obtain ⟨d, hd, hdl⟩ := List.mem_map.mp hmem
    have hdd : d = '_' := pyLowerChar_fix (by decide) hdl
    subst hdd
    obtain ⟨c0, _, hc0⟩ := List.mem_map.mp (mem_pyStripList hd)
    exact (replChar_ne c0).2 hc0

/-- Membership characterization of an attrHintList entry. -/
theorem attrHintList_mem {e : Element} {v : String} (hv : v ∈ attrHintList e) :
    ∃ a, a ∈ attrScanOrder ∧ v = cleanAttr (getAttr e a) ∧ v ≠ "" ∧ 1 < v.length := by
  unfold attrHintList at hv
  obtain ⟨a, ha, hfa⟩ := List.mem_filterMap.mp hv
  refine ⟨a, ha, ?_⟩
  dsimp only at hfa
  split at hfa
  · cases hfa
  · split at hfa
    · rename_i hcond
      cases hfa
      exact ⟨rfl, hcond.1, hcond.2⟩
    · cases hfa

/-! ## Helper lemmas about deduplication -/

theorem dedupKeepFirst_sublist : ∀ (l seen : List String),
    List.Sublist (dedupKeepFirst l seen) l := by
  intro l
  induction l with
  | nil => intro seen; simp [dedupKeepFirst]
  | cons h t ih =>
    intro seen
    unfold dedupKeepFirst
    split
    · exact List.Sublist.cons h (ih seen)
    · exact List.Sublist.cons₂ h (ih (h :: seen))

theorem dedupKeepFirst_mem : ∀ (l seen : List String) (x : String),
    x ∈ dedupKeepFirst l seen ↔ (x ∈ l ∧ x ∉ seen) := by
  intro l
  induction l with
  | nil => intro seen x; simp [dedupKeepFirst]
  | cons h t ih =>
    intro seen x
    unfold dedupKeepFirst
    split
    · rename_i hseen
      rw [ih]
      constructor
      · rintro ⟨hx, hns⟩
        exact ⟨List.mem_cons_of_mem _ hx, hns⟩
      · rintro ⟨hx, hns⟩
        rcases List.mem_cons.mp hx with rfl | hx
        · exact absurd hseen hns
        · exact ⟨hx, hns⟩
    · rename_i hseen
      rw [List.mem_cons, ih]
      constructor
      · rintro (rfl | ⟨hx, hns⟩)
        · exact ⟨List.mem_cons_self _ _, hseen⟩
        · refine ⟨List.mem_cons_of_mem _ hx, fun hc => hns (List.mem_cons_of_mem _ hc)⟩
      · rintro ⟨hx, hns⟩
        by_cases hxh : x = h
        · exact Or.inl hxh
        · rcases List.mem_cons.mp hx with rfl | hx2
          · exact absurd rfl hxh
          · refine Or.inr ⟨hx2, fun hc => ?_⟩
            rcases List.mem_cons.mp hc with h1 | h2
            · exact hxh h1
            · exact hns h2

theorem dedupKeepFirst_nodup : ∀ (l seen : List String),
    (dedupKeepFirst l seen).Nodup := by
  intro l
  induction l with
  | nil => intro seen; simp [dedupKeepFirst]
  | cons h t ih =>
    intro seen
    unfold dedupKeepFirst
    split
    · exact ih seen
    · rw [List.nodup_cons]
      refine ⟨fun hc => ?_, ih (h :: seen)⟩
      exact ((dedupKeepFirst_mem t (h :: seen) h).mp hc).2 (List.mem_cons_self _ _)

/-! ## Helper lemmas about the classifier scans -/

theorem firstFieldBy_mem {m : String → String → Bool} {name : String} :
    ∀ (l : List (StdField × List String)) {f : StdField},
      firstFieldBy m name l = some f → f ∈ l.map Prod.fst := by
  intro l
  induction l with
  | nil => intro f h; simp [firstFieldBy] at h
  | cons p rest ih =>
    intro f h
    obtain ⟨g, pats⟩ := p
    unfold firstFieldBy at h
    split at h
    · cases h
      simp
    · exact List.mem_cons_of_mem _ (ih h)

theorem firstFieldBy_head_pos {m : String → String → Bool} {name : String}
    {l : List (StdField × List String)} {f : StdField} {pats : List String}
    (hl : l.head? = some (f, pats)) (h : pats.any (fun p => m p name) = true) :
    firstFieldBy m name l = some f := by
  cases l with
  | nil => simp at hl
  | cons x rest =>
    have hx : x = (f, pats) := by simpa using hl
    subst hx
    unfold firstFieldBy
    rw [if_pos h]

/-! ## Helper lemmas about the stable descending sort -/

theorem find?_orderedInsert {α : Type} (score : α → Nat) (p : α → Bool) (x : α) :
    ∀ m : List α, m.Sorted (scoreRel score) →
      (List.orderedInsert (scoreRel score) x m).find? p =
        match m.find? p with
        | none => if p x then some x else none
        | some y => if p x then (if score y ≤ score x then some x else some y) else some y := by
  intro m
  induction m with
  | nil =>
    intro _
    simp only [List.orderedInsert, List.find?_nil]
    cases hpx : p x with
    | false => simp [List.find?, hpx]
    | true => simp [List.find?, hpx]
  | cons z zs ih =>
    intro hsorted
    rw [List.sorted_cons] at hsorted
    obtain ⟨hz, hzs⟩ := hsorted
    simp only [List.orderedInsert]
    by_cases hxz : scoreRel score x z
    · rw [if_pos hxz]
      cases hpx : p x with
      | true =>
        rw [List.find?_cons_of_pos _ hpx]
        cases hfm : (z :: zs).find? p with
        | none => simp [hpx]
        | some y =>
          have hy : y ∈ z :: zs := List.mem_of_find?_eq_some hfm
          have hsy : score y ≤ score x := by
            rcases List.mem_cons.mp hy with rfl | hmemzs
            · exact hxz
            · exact Nat.le_trans (hz y hmemzs) hxz
          simp [hpx, hsy]
      | false =>
        rw [List.find?_cons_of_neg _ (by simp [hpx])]
        cases hfm : (z :: zs).find? p with
        | none => simp [hpx]
        | some y => simp [hpx]
    · rw [if_neg hxz]
      by_cases hpz : p z
      · rw [List.find?_cons_of_pos _ hpz, List.find?_cons_of_pos _ hpz]
        have hnot : ¬ score z ≤ score x := hxz
        cases hpx : p x with
        | false => simp [hpx]
        | true => simp [hpx, hnot]
      · rw [List.find?_cons_of_neg _ hpz, List.find?_cons_of_neg _ hpz]
        exact ih hzs

theorem find?_stableSortDesc {α : Type} (score : α → Nat) (p : α → Bool) :
    ∀ l : List α, (stableSortDesc score l).find? p = argmaxFirst score (l.filter p) := by
  intro l
  induction l with
  | nil => rfl
  | cons x l ih =>
    have hs : (stableSortDesc score l).Sorted (scoreRel score) :=
      List.sorted_insertionSort _ l
    have hstep : stableSortDesc score (x :: l) =
        List.orderedInsert (scoreRel score) x (stableSortDesc score l) := rfl
    rw [hstep, find?_orderedInsert score p x _ hs, ih, List.filter_cons]
    cases hpx : p x with
    | false =>
      simp only [hpx, Bool.false_eq_true, if_false]
      cases ham : argmaxFirst score (l.filter p) <;> simp
    | true =>
      simp only [hpx, if_true]
      cases ham : argmaxFirst score (l.filter p) with
      | none => simp [argmaxFirst, ham]
      | some g =>
        simp only [argmaxFirst, ham]
        by_cases hle : score g ≤ score x
        · rw [if_pos hle, if_neg (Nat.not_lt.mpr hle)]
        · rw [if_neg hle, if_pos (Nat.lt_of_not_le hle)]

theorem find?_const_true {α : Type} (m : List α) :
    m.find? (fun _ => true) = m.head? := by
  cases m with
  | nil => rfl
  | cons a t => rw [List.find?_cons_of_pos _ rfl]; rfl

theorem head?_stableSortDesc {α : Type} (score : α → Nat) (l : List α) :
    (stableSortDesc score l).head? = argmaxFirst score l := by
  have h := find?_stableSortDesc score (fun _ => true) l
  rw [find?_const_true] at h
  rw [h, List.filter_eq_self.mpr]
  intro a _
  rfl

/-! ## Helper lemmas about the crawl loop -/

theorem foldl_runUrl (scrape : String → PageResult) :
    ∀ (l : List String) (acc : List PageResult × List String),
      l.foldl (runUrl scrape) acc = (acc.1 ++ l.map scrape, acc.2 ++ l) := by
  intro l
  induction l with
  | nil => intro acc; simp
  | cons a t ih =>
    intro acc
    rw [List.foldl_cons, ih]
    simp [runUrl, List.append_assoc]

theorem crawlLoop_spec (scrape : String → PageResult) (bs : Nat) (hbs : bs ≠ 0) :
    ∀ (n : Nat) (urls : List String), urls.length ≤ n → ∀ acc,
      crawlLoop scrape bs urls acc = (acc.1 ++ urls.map scrape, acc.2 ++ urls) := by
  intro n
  induction n with
  | zero =>
    intro urls h acc
    have hnil : urls = [] := List.eq_nil_of_length_eq_zero (Nat.le_zero.mp h)
    subst hnil
    simp [crawlLoop]
  | succ n ih =>
    intro urls h acc
    cases urls with
    | nil => simp [crawlLoop]
    | cons u rest =>
      rw [crawlLoop]
      rw [dif_neg hbs]
      rw [foldl_runUrl]
      rw [ih ((u :: rest).drop bs) (by simp [List.length_drop]; simp at h; omega)]
      rw [List.append_assoc, List.append_assoc, ← List.map_append, List.take_append_drop]

/-! ## Helper lemmas about the pass-1 candidate accumulation -/

theorem accumCandidates_additional (st : Pass1State) (e : Element)
    (etype guessed : String) (mapped : Option StdField) :
    (accumCandidates st e etype guessed mapped).additional_fields = st.additional_fields := by
  unfold accumCandidates
  dsimp only
  split <;> split <;> rfl

theorem accumCandidates_processed (st : Pass1State) (e : Element)
    (etype guessed : String) (mapped : Option StdField) :
    (accumCandidates st e etype guessed mapped).processedFields = st.processedFields := by
  unfold accumCandidates
  dsimp only
  split <;> split <;> rfl

/-! ## Classifier stage lemmas -/

/-- The type-and-table stage never produces JobTitle when Title already
matches the pattern scan. -/
theorem classifyByType_ne_jobtitle {name t : String}
    (hT : firstFieldBy patMatch name fieldPatternsList = some StdField.Title) :
    classifyByType name t ≠ some StdField.JobTitle := by
  unfold classifyByType
  split
  · split <;> simp
  · split
    · simp
    · split
      · simp
      · rw [hT]
        simp

/-- The type-and-table stage produces Submit only on the submit verb rule. -/
theorem classifyByType_submit {name t : String}
    (h : classifyByType name t = some StdField.Submit) :
    (t = "submit" ∨ t = "button") ∧
    submitTerms.any (fun p => pyIn p name) = true := by
  unfold classifyByType at h
  split at h
  · split at h
    · exact absurd h (by decide)
    · exact absurd h (by decide)
  · split at h
    · exact absurd h (by decide)
    · split at h
      · rename_i hcond
        exact hcond
      · split at h
        · rename_i f heq ha
          cases h
          exact absurd (firstFieldBy_mem _ ha) (by decide)
        · exact absurd (firstFieldBy_mem _ h) (by decide)

/-! ## Claim C7 -/

/-- C7: for every hint string containing the substring title and every element
type, map_to_standard_field never returns JobTitle: the generic table is
scanned in declaration order, Title precedes JobTitle and owns the pattern
title, and no earlier rule can produce JobTitle. -/
theorem title_never_jobtitle (g t : String) (h : pyIn "title" g = true) :
    mapToStandardField g t ≠ some StdField.JobTitle := by
  have hg : g ≠ "" := by
    intro he
    subst he
    simp [pyIn, isSubList] at h
  have hlow : pyIn "title" (pyLower g) = true := by
    have hmap : ("title".data.map pyLowerChar) = "title".data := by decide
    show isSubList "title".data (g.data.map pyLowerChar) = true
    rw [← hmap]
    exact isSubList_map pyLowerChar _ _ h
  have hT : firstFieldBy patMatch (pyLower g) fieldPatternsList = some StdField.Title := by
    refine firstFieldBy_head_pos rfl (List.any_eq_true.mpr ⟨"title", by decide, ?_⟩)
    simp [patMatch, hlow]
  unfold mapToStandardField
  rw [if_neg hg]
  split
  · simp
  · split
    · rename_i f heq ha
      intro hc
      cases hc
      exact absurd (firstFieldBy_mem _ ha) (by decide)
    · exact classifyByType_ne_jobtitle hT

/-- Witness for C7 at the hint jobtitle with element type text. -/
theorem title_never_jobtitle_witness :
    pyIn "title" "jobtitle" = true ∧
    mapToStandardField "jobtitle" "text" ≠ some StdField.JobTitle :=
  ⟨by decide, title_never_jobtitle "jobtitle" "text" (by decide)⟩

/-! ## Claim C9 -/

/-- C9: map_to_standard_field returns Submit only for element type submit or
button with an action verb in the hint; the generic pattern table has no
Submit entry, so no hint alone can produce Submit for any other type. -/
theorem submit_only_for_buttons (g t : String)
    (h : mapToStandardField g t = some StdField.Submit) :
    (t = "submit" ∨ t = "button") ∧
    submitTerms.any (fun p => pyIn p (pyLower g)) = true := by
  unfold mapToStandardField at h
  by_cases hg : g = ""
  · rw [if_pos hg] at h
    cases h
  · rw [if_neg hg] at h
    split at h
    · exact absurd h (by decide)
    · split at h
      · rename_i f heq ha
        cases h
        exact absurd (firstFieldBy_mem _ ha) (by decide)
      · exact classifyByType_submit h

/-- Witness for C9: a submit-typed button whose hint contains send. -/
theorem submit_only_for_buttons_witness :
    mapToStandardField "please send" "submit" = some StdField.Submit ∧
    (("submit" : String) = "submit" ∨ ("submit" : String) = "button") ∧
    submitTerms.any (fun p => pyIn p (pyLower "please send")) = true :=
  ⟨by decide, submit_only_for_buttons "please send" "submit" (by decide)⟩

/-! ## Claim C8 (corrected) -/

/-- C8 counterexample: an element whose only signal is a parent label with the
text E-Mail; the returned hint is e-mail, which is not the sentinel and still
contains a hyphen, so the hint is not hyphen/underscore-normalized across all
signal sources. -/
theorem hint_hyphen_counterexample :
    guessFieldName labelHyphenElem = "e-mail" ∧
    guessFieldName labelHyphenElem ≠ "Unknown Field" ∧
    '-' ∈ (guessFieldName labelHyphenElem).data := by decide

/-- C8 amended: only the direct attribute values are hyphen/underscore
normalized (no attribute-derived hint contains a hyphen or underscore); the
final hint list is duplicate-free, a sublist of the filtered signal list
(first-seen order preserved), keeps exactly the non-empty non-whitespace
signals, and is joined with spaces, with the sentinel returned when empty. -/
theorem hint_extraction_normalization (e : Element) :
    (∀ v ∈ attrHintList e, ¬ '-' ∈ v.data ∧ ¬ '_' ∈ v.data) ∧
    (finalHints e).Nodup ∧
    List.Sublist (finalHints e) ((rawHints e).filter keepHint) ∧
    (∀ h, h ∈ finalHints e ↔ h ∈ (rawHints e).filter keepHint) ∧
    (finalHints e = [] → guessFieldName e = "Unknown Field") ∧
    (finalHints e ≠ [] → guessFieldName e = String.intercalate " " (finalHints e)) := by
  refine ⟨?_, ?_, ?_, ?_, ?_, ?_⟩
  · intro v hv
    obtain ⟨a, _, hva, _, _⟩ := attrHintList_mem hv
    rw [hva]
    exact cleanAttr_no_dash _
  · exact dedupKeepFirst_nodup _ []
  · exact dedupKeepFirst_sublist _ []
  · intro h
    unfold finalHints
    rw [dedupKeepFirst_mem]
    simp
  · intro hemp
    unfold guessFieldName
    rw [hemp]
    rfl
  · intro hne
    unfold guessFieldName
    rw [if_neg]
    simp [List.isEmpty_iff, hne]

/-- Witness for C8 amended at the concrete hyphen-label element. -/
theorem hint_extraction_normalization_witness :
    finalHints labelHyphenElem ≠ [] ∧
    guessFieldName labelHyphenElem = String.intercalate " " (finalHints labelHyphenElem) :=
  ⟨by decide, (hint_extraction_normalization labelHyphenElem).2.2.2.2.2 (by decide)⟩

/-! ## Claim C10 -/

/-- C10: the attribute loop of guess_field_name silently discards every value
whose cleaned form has length at most one: every surviving attribute hint has
length greater than one, and an element all of whose attribute values clean to
length at most one, with no other signal source, yields the sentinel even
when a value is neither empty nor whitespace-only. -/
theorem short_attribute_values_discarded (e : Element) :
    (∀ v ∈ attrHintList e, 1 < v.length) ∧
    ((∀ a ∈ attrScanOrder, (cleanAttr (getAttr e a)).length ≤ 1) →
      labelForHints e = [] → parentLabelHints e = [] → precedingHints e = [] →
      addressContainerHints e = [] → followingHints e = [] →
      guessFieldName e = "Unknown Field") := by
  constructor
  · intro v hv
    obtain ⟨_, _, _, _, hlen⟩ := attrHintList_mem hv
    exact hlen
  · intro hshort h1 h2 h3 h4 h5
    have hattr : attrHintList e = [] := by
      unfold attrHintList
      rw [List.filterMap_eq_nil_iff]
      intro a ha
      dsimp only
      split
      · rfl
      · rw [if_neg]
        intro hc
        exact absurd (hshort a ha) (by omega)
    have hraw : rawHints e = [] := by
      unfold rawHints
      rw [hattr, h1, h2, h3, h4, h5]
      rfl
    unfold guessFieldName finalHints
    rw [hraw]
    rfl

/-- Witness for C10: the single-character name attribute q is discarded and
the hint collapses to the sentinel. -/
theorem short_attribute_values_discarded_witness :
    guessFieldName singleCharAttrElem = "Unknown Field" :=
  (short_attribute_values_discarded singleCharAttrElem).2
    (by decide) (by decide) (by decide) (by decide) (by decide) (by decide)

/-! ## Claim C2 (corrected) -/

/-- C2 counterexample: for the Scenario 1 element the computed score is 130,
not at least 150: the pattern first scores +30 as a plain substring but the
+50 word-boundary bonus cannot fire because the underscores around first are
regex word characters, leaving 30 plus the 100 name-segment bonus. -/
theorem scenario1_score_counterexample :
    scoreElem StdField.FirstName (patternsFor StdField.FirstName) scenario1Elem = 130 ∧
    ¬ 150 ≤ scoreElem StdField.FirstName (patternsFor StdField.FirstName) scenario1Elem := by
  decide

/-- C2 amended: the element with name user_first_name and type text is
selected by best() for FirstName, the strict name-segment rule fires
(matching the segment _first_), and the computed score is exactly 130. -/
theorem scenario1_first_name_selection :
    find_best_candidate_for_field [scenario1Elem] StdField.FirstName = some scenario1Elem ∧
    nameSegMatch (pyLower (getAttr scenario1Elem "name")) = some "_first_" ∧
    scoreElem StdField.FirstName (patternsFor StdField.FirstName) scenario1Elem = 130 := by
  decide

/-! ## Claim C3 -/

/-- C3: when no element scores positively for FirstName or LastName, the
positional fallback fires exactly when the ambiguous-name-field scan finds
exactly two elements, assigning the first to FirstName and the second to
LastName; for any other count both lookups return none. -/
theorem name_positional_fallback (elements : List Element)
    (hF : posCands elements StdField.FirstName = [])
    (hL : posCands elements StdField.LastName = []) :
    (∀ a b, nameFields elements = [a, b] →
      find_best_candidate_for_field elements StdField.FirstName = some a ∧
      find_best_candidate_for_field elements StdField.LastName = some b) ∧
    ((nameFields elements).length ≠ 2 →
      find_best_candidate_for_field elements StdField.FirstName = none ∧
      find_best_candidate_for_field elements StdField.LastName = none) := by
  constructor
  · intro a b hN
    constructor
    · simp only [find_best_candidate_for_field, hF, hN]
      simp [stableSortDesc, List.insertionSort]
    · simp only [find_best_candidate_for_field, hL, hN]
      simp [stableSortDesc, List.insertionSort]
  · intro hlen
    constructor
    · simp only [find_best_candidate_for_field, hF]
      rcases hnf : nameFields elements with _ | ⟨a, _ | ⟨b, _ | ⟨c, rest⟩⟩⟩
      · simp [stableSortDesc, List.insertionSort]
      · simp [stableSortDesc, List.insertionSort]
      · exact absurd (by rw [hnf]; rfl) hlen
      · simp [stableSortDesc, List.insertionSort]
    · simp only [find_best_candidate_for_field, hL]
      rcases hnf : nameFields elements with _ | ⟨a, _ | ⟨b, _ | ⟨c, rest⟩⟩⟩
      · simp [stableSortDesc, List.insertionSort]
      · simp [stableSortDesc, List.insertionSort]
      · exact absurd (by rw [hnf]; rfl) hlen
      · simp [stableSortDesc, List.insertionSort]

/-- Witness for C3: two text inputs named name1 and name2, neither scoring
positively, are assigned positionally. -/
theorem name_positional_fallback_witness :
    find_best_candidate_for_field [ambigName1, ambigName2] StdField.FirstName = some ambigName1 ∧
    find_best_candidate_for_field [ambigName1, ambigName2] StdField.LastName = some ambigName2 :=
  (name_positional_fallback [ambigName1, ambigName2] (by decide) (by decide)).1
    ambigName1 ambigName2 (by decide)

/-! ## Claim C4 -/

/-- C4: form selection picks the highest-scoring candidate form with at least
two visible inputs, ties resolved to the earlier-encountered form by the
stable sort, and falls back to the overall highest-scoring form when no
candidate has two visible inputs; stated as agreement with the directly
spec-worded selection function. -/
theorem form_selection_matches_spec (forms : List FormInfo) :
    selectMainForm forms = specSelectMainForm forms := by
  simp only [selectMainForm, specSelectMainForm]
  rw [find?_stableSortDesc, head?_stableSortDesc]

/-! ## Claim C1 (corrected) -/

/-- C1 counterexample: in pass 1 a visible, non-required element that
classifies to the already-claimed Email field is filed nowhere: after
processing both email inputs the additional-field list is empty, so such an
element is silently dropped rather than recorded with required=true. -/
theorem pass1_duplicate_dropped_counterexample :
    mapToStandardField (guessFieldName dupEmailSecond) (elemType dupEmailSecond) =
      some StdField.Email ∧
    StdField.Email ∈ (pass1Step initPass1State dupEmailFirst).processedFields ∧
    dupEmailSecond.visible = true ∧
    isElementRequired dupEmailSecond = false ∧
    (process_form_elements_pass1 [dupEmailFirst, dupEmailSecond]).additional_fields = [] := by
  decide

/-- C1 amended: in pass 1, a visible non-hidden non-button element that
classifies to an already-claimed field is filed as an AdditionalField with
required=true exactly when the element itself is required, and is silently
dropped otherwise; an unclassified element is always filed with required
equal to its own required attribute. -/
theorem pass1_additional_field_filing (st : Pass1State) (e : Element)
    (hv : e.visible = true) (hh : elemType e ≠ "hidden")
    (hb : ¬(elemType e = "submit" ∨ elemType e = "button" ∨ elemType e = "image")) :
    ((∃ f, mapToStandardField (guessFieldName e) (elemType e) = some f ∧
        f ∈ st.processedFields) →
      (isElementRequired e = true →
        (pass1Step st e).additional_fields = st.additional_fields ++
          [{ field_name := guessFieldName e, xpath := getXPath e,
             element_type := elemType e, required := true }]) ∧
      (isElementRequired e = false →
        (pass1Step st e).additional_fields = st.additional_fields)) ∧
    (mapToStandardField (guessFieldName e) (elemType e) = none →
      (pass1Step st e).additional_fields = st.additional_fields ++
        [{ field_name := guessFieldName e, xpath := getXPath e,
           element_type := elemType e, required := isElementRequired e }]) := by
  have hv' : ¬ e.visible = false := by rw [hv]; decide
  constructor
  · rintro ⟨f, hmf, hmem⟩
    have hstep : pass1Step st e =
        (if f ∉ (accumCandidates st e (elemType e) (guessFieldName e)
                  (mapToStandardField (guessFieldName e) (elemType e))).processedFields then
          { accumCandidates st e (elemType e) (guessFieldName e)
              (mapToStandardField (guessFieldName e) (elemType e)) with
            fields := setField (accumCandidates st e (elemType e) (guessFieldName e)
                (mapToStandardField (guessFieldName e) (elemType e))).fields f
              { xpath := getXPath e, ftype := elemType e,
                required := isElementRequired e, found := true },
            processedFields := (accumCandidates st e (elemType e) (guessFieldName e)
                (mapToStandardField (guessFieldName e) (elemType e))).processedFields ++ [f] }
        else if isElementRequired e = true then
          { accumCandidates st e (elemType e) (guessFieldName e)
              (mapToStandardField (guessFieldName e) (elemType e)) with
            additional_fields := (accumCandidates st e (elemType e) (guessFieldName e)
                (mapToStandardField (guessFieldName e) (elemType e))).additional_fields ++
              [{ field_name := guessFieldName e, xpath := getXPath e,
                 element_type := elemType e, required := true }] }
        else accumCandidates st e (elemType e) (guessFieldName e)
              (mapToStandardField (guessFieldName e) (elemType e))) := by
      simp only [pass1Step]
      rw [if_neg hv', if_neg hh, if_neg hb, hmf]
    have hmem' : f ∈ (accumCandidates st e (elemType e) (guessFieldName e)
        (mapToStandardField (guessFieldName e) (elemType e))).processedFields := by
      rw [accumCandidates_processed]
      exact hmem
    rw [hstep, if_neg (not_not_intro hmem')]
    constructor
    · intro hreq
      rw [if_pos hreq]
      simp [accumCandidates_additional]
    · intro hreq
      rw [if_neg (by rw [hreq]; decide)]
      exact accumCandidates_additional st e _ _ _
  · intro hmf
    have hstep : pass1Step st e =
        (if isElementRequired e = true then
          { accumCandidates st e (elemType e) (guessFieldName e)
              (mapToStandardField (guessFieldName e) (elemType e)) with
            additional_fields := (accumCandidates st e (elemType e) (guessFieldName e)
                (mapToStandardField (guessFieldName e) (elemType e))).additional_fields ++
              [{ field_name := guessFieldName e, xpath := getXPath e,
                 element_type := elemType e, required := true }] }
        else
          { accumCandidates st e (elemType e) (guessFieldName e)
              (mapToStandardField (guessFieldName e) (elemType e)) with
            additional_fields := (accumCandidates st e (elemType e) (guessFieldName e)
                (mapToStandardField (guessFieldName e) (elemType e))).additional_fields ++
              [{ field_name := guessFieldName e, xpath := getXPath e,
                 element_type := elemType e, required := false }] }) := by
      simp only [pass1Step]
      rw [if_neg hv', if_neg hh, if_neg hb, hmf]
    rw [hstep]
    cases hreq : isElementRequired e with
    | true =>
      rw [if_pos rfl]
      simp [accumCandidates_additional]
    | false =>
      rw [if_neg (by decide)]
      simp [accumCandidates_additional]

/-- Witness for C1 amended: a visible unclassified text input is filed as an
AdditionalField carrying its own required flag. -/
theorem pass1_additional_field_filing_witness :
    (pass1Step initPass1State unclassifiedElem).additional_fields =
      initPass1State.additional_fields ++
        [{ field_name := guessFieldName unclassifiedElem, xpath := getXPath unclassifiedElem,
           element_type := elemType unclassifiedElem,
           required := isElementRequired unclassifiedElem }] :=
  (pass1_additional_field_filing initPass1State unclassifiedElem
    (by decide) (by decide) (by decide)).2 (by decide)

/-! ## Claim C5 -/

/-- C5: for a URL list split as front ++ rest where every front URL is in the
stripped checkpoint log and no rest URL is, process_url_list produces exactly
one result per rest URL and appends exactly the rest URLs (in order) to the
checkpoint log: N minus K results and N minus K new checkpoint lines. -/
theorem checkpoint_resume_processes_remaining (scrape : String → PageResult)
    (cps front rest : List String) (bs : Nat) (hbs : bs ≠ 0)
    (hfront : ∀ u ∈ front, u ∈ cps.map pyStrip)
    (hrest : ∀ u ∈ rest, u ∉ cps.map pyStrip) :
    (process_url_list scrape (front ++ rest) cps bs).1.length = rest.length ∧
    (process_url_list scrape (front ++ rest) cps bs).2 = rest := by
  have hfilter : (front ++ rest).filter (fun u => decide (u ∉ cps.map pyStrip)) = rest := by
    rw [List.filter_append]
    have h1 : front.filter (fun u => decide (u ∉ cps.map pyStrip)) = [] := by
      rw [List.filter_eq_nil_iff]
      intro a ha
      simp [hfront a ha]
    have h2 : rest.filter (fun u => decide (u ∉ cps.map pyStrip)) = rest := by
      rw [List.filter_eq_self]
      intro a ha
      simp [hrest a ha]
    rw [h1, h2, List.nil_append]
  have hrun := crawlLoop_spec scrape bs hbs rest.length rest (Nat.le_refl _) ([], [])
  simp only [process_url_list]
  rw [hfilter, hrun]
  simp

/-- Witness for C5: three URLs with the first already checkpointed, batch
size 20: two results and two new checkpoint lines. -/
theorem checkpoint_resume_processes_remaining_witness :
    (process_url_list (fun u => { url := u, error := none }) (["a"] ++ ["b", "c"]) ["a"] 20).1.length = 2 ∧
    (process_url_list (fun u => { url := u, error := none }) (["a"] ++ ["b", "c"]) ["a"] 20).2 = ["b", "c"] :=
  checkpoint_resume_processes_remaining (fun u => { url := u, error := none })
    ["a"] ["a"] ["b", "c"] 20 (by decide) (by decide) (by decide)

/-! ## Claim C6 -/

/-- C6: when every navigation attempt raises the session-invalidation error
and max_retries is 2, scrape_form_fields performs exactly two browser resets
and returns normally with the error string Invalid session ID after 2
retries, so the crawl is not aborted. -/
theorem session_retry_exhaustion (nav : Nat → NavOutcome)
    (hnav : ∀ n, nav n = NavOutcome.invalidSession)
    (processPage : Nat → PageResult) (url : String) :
    scrape_form_fields nav processPage url 0 2 =
      ({ url := url, error := some "Invalid session ID after 2 retries" }, 2) := by
  have hs : ("Invalid session ID after " ++ toString 2 ++ " retries") =
      "Invalid session ID after 2 retries" := by decide
  have h2 : scrape_form_fields nav processPage url 2 2 =
      ({ url := url, error := some "Invalid session ID after 2 retries" }, 0) := by
    unfold scrape_form_fields
    rw [hnav 2]
    rw [dif_neg (by omega)]
    rw [hs]
  have h1 : scrape_form_fields nav processPage url 1 2 =
      ({ url := url, error := some "Invalid session ID after 2 retries" }, 1) := by
    unfold scrape_form_fields
    rw [hnav 1]
    rw [dif_pos (by omega)]
    rw [h2]
  unfold scrape_form_fields
  rw [hnav 0]
  rw [dif_pos (by omega)]
  rw [h1]

/-- Witness for C6 with the constantly failing navigation oracle. -/
theorem session_retry_exhaustion_witness :
    scrape_form_fields (fun _ => NavOutcome.invalidSession)
        (fun _ => { url := "u", error := none }) "u" 0 2 =
      ({ url := "u", error := some "Invalid session ID after 2 retries" }, 2) :=
  session_retry_exhaustion (fun _ => NavOutcome.invalidSession) (fun _ => rfl)
    (fun _ => { url := "u", error := none }) "u"

end FormScraper
